import Mathlib

/-!
Verification of the FlavorDB acquisition routine (`download_flavordb` in
`src/data/download.py`) against its natural-language specification.

The embedding models:
- the JSON values the API returns (`JVal`) and the response-shape detector
  `extract_entity` (source lines 175–188);
- the per-ID sweep loop (source lines 212–283) as a step function over an
  explicit `SweepState`, with the network modelled as an oracle
  `fetch : Nat → RawResult`;
- the preflight check (source lines 114–202);
- the relational extraction of the cached documents into the four tables
  (source lines 296–377).

JSON parsing itself (`json.loads`) is abstracted: the body of a successful
HTTP response carries `parsed : Option JVal`, the result of decoding its
text (`none` models a `JSONDecodeError`).  Everything downstream of the
decode — the HTML sniff, shape probing, counters, caching, table building —
is translated directly from the source.
-/

/-! ## Python string primitives

The handful of Python string operations the routine uses (`strip`, `lower`,
`startswith`, `split`, substring membership, lexicographic comparison) are
implemented over the character list of a `String`, so that every model
function evaluates inside the kernel. -/

/-- Python `str.strip()`: drop leading and trailing whitespace. -/
def pyStrip (s : String) : String :=
  String.mk (((s.data.dropWhile Char.isWhitespace).reverse.dropWhile
    Char.isWhitespace).reverse)

/-- Python `str.lower()` (on the ASCII range the data uses). -/
def pyLower (s : String) : String :=
  String.mk (s.data.map Char.toLower)

/-- Whether the second character list is an initial segment of the first
(Python `str.startswith`). -/
def charsStart : List Char → List Char → Bool
  | _, [] => true
  | [], _ :: _ => false
  | c :: cs, d :: ds => c = d && charsStart cs ds

/-- Python `s.startswith(p)`. -/
def startsW (s p : String) : Bool := charsStart s.data p.data

/-- Whether `needle` occurs as a contiguous sublist of the second argument
(Python `needle in hay`). -/
def charsContain (needle : List Char) : List Char → Bool
  | [] => charsStart [] needle
  | c :: t => charsStart (c :: t) needle || charsContain needle t

/-- Python `needle in hay` on strings. -/
def containsSub (hay needle : String) : Bool := charsContain needle.data hay.data

/-- Python `s.split(sep)` for a one-character separator: `split` never
returns an empty list and keeps empty fields. -/
def splitChar (c : Char) : List Char → List (List Char)
  | [] => [[]]
  | d :: ds =>
    let r := splitChar c ds
    if d = c then [] :: r
    else
      match r with
      | [] => [[d]]
      | h :: t => (d :: h) :: t

/-- Lexicographic comparison of character lists by code point — the order
Python uses to compare strings (and hence `Path`s with a common parent). -/
def charsLe : List Char → List Char → Bool
  | [], _ => true
  | _ :: _, [] => false
  | a :: as, b :: bs =>
    decide (a.toNat < b.toNat) || (decide (a.toNat = b.toNat) && charsLe as bs)

/-- JSON values, as produced by `json.loads`: objects are association lists
with distinct keys (Python dicts). -/
inductive JVal where
  | obj (fields : List (String × JVal))
  | arr (elems : List JVal)
  | str (s : String)
  | num (n : Int)
  | boolean (b : Bool)
  | null
deriving Repr

/-- Python `key in data` on a dict. -/
def hasKey (fields : List (String × JVal)) (k : String) : Bool :=
  fields.any (fun p => p.1 = k)

/-- Python `data[key]` / `data.get(key)` on a dict. -/
def getKey (fields : List (String × JVal)) (k : String) : Option JVal :=
  (fields.find? (fun p => p.1 = k)).map (fun p => p.2)

/-- The wrapper-key probe of `extract_entity` (source lines 181–185):
`for key in ["data", "entity", "result"]: if key in data and
isinstance(data[key], dict): inner = data[key]; if "entity_id" in inner:
return inner, True`.  Note that only `entity_id` is required of the nested
mapping. -/
def probeWrappers (fields : List (String × JVal)) : List String → Option (List (String × JVal))
  | [] => none
  | k :: ks =>
    match getKey fields k with
    | some (JVal.obj inner) =>
      if hasKey inner "entity_id" then some inner else probeWrappers fields ks
    | _ => probeWrappers fields ks

/-- The dict branch of `extract_entity` (source lines 177–185). -/
def extractObj (fields : List (String × JVal)) : JVal × Bool :=
  if hasKey fields "entity_id" && hasKey fields "molecules" then
    (JVal.obj fields, true)
  else
    match probeWrappers fields ["data", "entity", "result"] with
    | some inner => (JVal.obj inner, true)
    | none => (JVal.obj fields, false)

/-- `extract_entity(data)` (source lines 175–188): dict branch via
`extractObj`; a singleton list whose element is a dict recurses into the
dict branch (the source's self-call can only hit the dict case there);
anything else returns `(data, False)`. -/
def extract_entity : JVal → JVal × Bool
  | JVal.obj fields => extractObj fields
  | JVal.arr l =>
    match l with
    | [JVal.obj fields] => extractObj fields
    | _ => (JVal.arr l, false)
  | d => (d, false)

/-- Body of a successful HTTP response: content type, decoded text, and the
result of `json.loads` on that text (`none` = `JSONDecodeError`). -/
structure OkBody where
  contentType : String
  text : String
  parsed : Option JVal

/-- Outcome of one network fetch: `ok` (HTTP 200 with a body),
`httpError` (`urllib.error.HTTPError` with a status code), or
`transportError` (any other exception raised by the request, e.g. a
connection or DNS failure). -/
inductive RawResult where
  | ok (body : OkBody)
  | httpError (code : Nat)
  | transportError (msg : String)

/-- The HTML sniff used by the sweep (source lines 239–241):
`raw_text.strip().startswith("<!") or raw_text.strip().startswith("<html")`. -/
def looksHtml (t : String) : Bool :=
  startsW (pyStrip t) "<!" || startsW (pyStrip t) "<html"

/-- State of the sweep loop (source lines 207–283).  `cache` is the set of
IDs with an existing `{id}.json` file; `fetched` logs every ID for which a
network request was issued, in order; `sleeps` logs every ID after whose
processing `time.sleep(0.15)` ran; `aborted` records the circuit-breaker
`break`. -/
structure SweepState where
  cache : List Nat
  downloaded : Nat
  skipped : Nat
  not_found : Nat
  errors : List (Nat × String)
  fetched : List Nat
  sleeps : List Nat
  aborted : Bool
deriving Repr, DecidableEq

/-- The circuit-breaker condition (source line 281):
`len(errors) >= 20 and all(eid - errors[-20][0] < 25 for _ in [1])`,
i.e. at least 20 errors and the 20th-from-last error's ID within 25 of the
current ID.  It is evaluated only in the generic-exception handler. -/
def breakerTrips (eid : Nat) (errs : List (Nat × String)) : Bool :=
  decide (20 ≤ errs.length) &&
    decide ((eid : Int) - ((errs.getD (errs.length - 20) (0, "")).1 : Int) < 25)

/-- One iteration of the sweep loop for ID `eid` (source lines 218–283).
Order of operations mirrors the source: cache hit → `skipped`; otherwise
one fetch; `HTTPError` with code in 404/400/500 → `not_found`, other codes
→ append to `errors` (no breaker check in this handler); HTML body →
`not_found`; `JSONDecodeError` → `not_found`; invalid shape → `not_found`;
valid → cache write, `downloaded`, and the only `time.sleep(0.15)`;
any other exception (transport failure) → append to `errors` and evaluate
the circuit breaker. -/
def sweepStep (fetch : Nat → RawResult) (s : SweepState) (eid : Nat) : SweepState :=
  if s.cache.contains eid then
    { s with skipped := s.skipped + 1 }
  else
    let s := { s with fetched := s.fetched ++ [eid] }
    match fetch eid with
    | RawResult.httpError code =>
      if code = 404 || code = 400 || code = 500 then
        { s with not_found := s.not_found + 1 }
      else
        { s with errors := s.errors ++ [(eid, "HTTP " ++ toString code)] }
    | RawResult.transportError msg =>
      let errs := s.errors ++ [(eid, msg)]
      { s with errors := errs, aborted := breakerTrips eid errs }
    | RawResult.ok body =>
      if looksHtml body.text then
        { s with not_found := s.not_found + 1 }
      else
        match body.parsed with
        | none => { s with not_found := s.not_found + 1 }
        | some data =>
          match extract_entity data with
          | (_, false) => { s with not_found := s.not_found + 1 }
          | (_, true) =>
            { s with cache := s.cache ++ [eid], downloaded := s.downloaded + 1,
                     sleeps := s.sleeps ++ [eid] }

/-- The sweep loop over a list of IDs, honouring the circuit-breaker
`break`. -/
def sweepGo (fetch : Nat → RawResult) : List Nat → SweepState → SweepState
  | [], s => s
  | eid :: rest, s =>
    let s' := sweepStep fetch s eid
    if s'.aborted then s' else sweepGo fetch rest s'

/-- Initial sweep state over a pre-existing cache. -/
def initState (cache0 : List Nat) : SweepState :=
  { cache := cache0, downloaded := 0, skipped := 0, not_found := 0,
    errors := [], fetched := [], sleeps := [], aborted := false }

/-- Outcome of the preflight check on the known-good ID 0
(source lines 114–202). -/
inductive PreflightResult where
  | pass (entity : JVal)
  | failHtml
  | failHttp (code : Nat)
  | failTransport (msg : String)
  | failParse
  | failShape (testData : JVal)

/-- The preflight check: fetch ID 0; `HTTPError` → return; HTML content
type or HTML-looking text → return; `json.loads` failure (caught by the
generic handler) → return; shape probe failure → save the parsed test data
to `TEST_RESPONSE.json` and return; otherwise the sweep may start. -/
def preflight (fetch : Nat → RawResult) : PreflightResult :=
  match fetch 0 with
  | RawResult.httpError c => PreflightResult.failHttp c
  | RawResult.transportError m => PreflightResult.failTransport m
  | RawResult.ok body =>
    if containsSub body.contentType "text/html" || looksHtml body.text then
      PreflightResult.failHtml
    else
      match body.parsed with
      | none => PreflightResult.failParse
      | some d =>
        match extract_entity d with
        | (_, true) => PreflightResult.pass d
        | (_, false) => PreflightResult.failShape d

/-- Whether the preflight outcome is a classification failure of the
response body (as opposed to passing, or to the request itself failing). -/
def classificationFailed : PreflightResult → Bool
  | PreflightResult.failHtml => true
  | PreflightResult.failParse => true
  | PreflightResult.failShape _ => true
  | _ => false

/-- Result of one whole run of `download_flavordb`: the ordered log of every
network fetch issued (preflight included), whether the sweep ran, whether
the `TEST_RESPONSE.json` diagnostic file was written, and the final sweep
state. -/
structure RunOutcome where
  fetchLog : List Nat
  sweepRan : Bool
  diagWritten : Bool
  final : SweepState
deriving Repr, DecidableEq

/-- One run of `download_flavordb` over IDs `0..maxId` (the source sweeps
`range(0, FLAVORDB_MAX_ENTITY_ID + 1)`, line 212) starting from cache
contents `cache0`.  The preflight always issues one fetch of ID 0; the
diagnostic file is written exactly when the shape probe fails on parsed
JSON; the sweep runs only when the preflight passes. -/
def runDownload (fetch : Nat → RawResult) (maxId : Nat) (cache0 : List Nat) : RunOutcome :=
  match preflight fetch with
  | PreflightResult.pass _ =>
    let s := sweepGo fetch (List.range (maxId + 1)) (initState cache0)
    { fetchLog := 0 :: s.fetched, sweepRan := true, diagWritten := false, final := s }
  | PreflightResult.failShape _ =>
    { fetchLog := [0], sweepRan := false, diagWritten := true, final := initState cache0 }
  | _ =>
    { fetchLog := [0], sweepRan := false, diagWritten := false, final := initState cache0 }

/-! ## Relational extraction (source lines 296–377)

A cached document is modelled with exactly the fields the extraction code
reads: `entity_id` (always present in a cached file), the two optional name
keys, the optional `category`, and the `molecules` array (absent modelled as
`[]`, matching `data.get("molecules", [])`).  Each molecule entry carries an
optional `pubchem_id` and the string fields read with `mol.get(key, "")`. -/

/-- One entry of a cached document's `molecules` array, restricted to the
fields the extraction reads. -/
structure MolEntry where
  pubchem_id : Option Int
  common_name : String
  smile : String
  molecular_weight : String
  functional_groups : String
  flavor_profile : String
deriving Repr, DecidableEq

/-- One cached entity document, restricted to the fields the extraction
reads. -/
structure EntityDoc where
  entity_id : Int
  entity_alias_readable : Option String
  entity_alias : Option String
  category : Option String
  molecules : List MolEntry
deriving Repr, DecidableEq

/-- One row of the `molecules` table (source lines 321–329). -/
structure MolRow where
  pubchem_id : Int
  common_name : String
  smile : String
  molecular_weight : String
  functional_groups : String
deriving Repr, DecidableEq

/-- The name fallback chain (source lines 310–312):
`data.get("entity_alias_readable", data.get("entity_alias", f"entity_{eid}"))`. -/
def entityName (d : EntityDoc) : String :=
  match d.entity_alias_readable with
  | some n => n
  | none =>
    match d.entity_alias with
    | some n => n
    | none => "entity_" ++ toString d.entity_id

/-- Descriptor extraction from one `flavor_profile` string (source lines
334–339): guard the falsy empty string, split on `"@"`, strip, lowercase,
drop empties. -/
def descriptors (fp : String) : List String :=
  if fp = "" then []
  else (((splitChar '@' fp.data).map
    (fun cs => pyLower (pyStrip (String.mk cs)))).filter (fun d => d ≠ ""))

/-- The molecule rows contributed by one document, in array order, skipping
entries whose `pubchem_id` is absent (source lines 316–329). -/
def molRows (d : EntityDoc) : List MolRow :=
  d.molecules.filterMap (fun m =>
    m.pubchem_id.map (fun pid =>
      { pubchem_id := pid, common_name := m.common_name, smile := m.smile,
        molecular_weight := m.molecular_weight,
        functional_groups := m.functional_groups }))

/-- The `(entity_id, pubchem_id)` edges contributed by one document
(source line 331). -/
def molEdges (d : EntityDoc) : List (Int × Int) :=
  d.molecules.filterMap (fun m => m.pubchem_id.map (fun pid => (d.entity_id, pid)))

/-- The `(pubchem_id, descriptor)` pairs contributed by one document
(source lines 333–339), before set-deduplication. -/
def descEdges (d : EntityDoc) : List (Int × String) :=
  d.molecules.flatMap (fun m =>
    match m.pubchem_id with
    | none => []
    | some pid => (descriptors m.flavor_profile).map (fun ds => (pid, ds)))

/-- The cache file name of numeric ID `fid` (the sweep writes
`raw_dir / f"{eid}.json"`, source line 219). -/
def fileKey (fid : Nat) : String := toString fid ++ ".json"

/-- File-name order: `Path` objects under a common parent compare by their
string, so `sorted(raw_dir.glob("*.json"))` (source line 301) orders the
documents by the string `"{id}.json"`. -/
def fileLe (a b : Nat × EntityDoc) : Prop :=
  charsLe (fileKey a.1).data (fileKey b.1).data = true

instance : DecidableRel fileLe := fun a b =>
  instDecidableEqBool (charsLe (fileKey a.1).data (fileKey b.1).data) true

/-- The order in which the extraction visits the cached documents:
`sorted(raw_dir.glob("*.json"))`, i.e. a stable sort by file name. -/
def processOrder (cache : List (Nat × EntityDoc)) : List (Nat × EntityDoc) :=
  cache.insertionSort fileLe

/-- Python's insertion-ordered `seen_mols` dict (source lines 342–345): keep
each row whose `pubchem_id` was not seen before, in order. -/
def dedupFirstAux (seen : List Int) : List MolRow → List MolRow
  | [] => []
  | m :: rest =>
    if m.pubchem_id ∈ seen then dedupFirstAux seen rest
    else m :: dedupFirstAux (m.pubchem_id :: seen) rest

/-- `seen_mols.values()`: first-seen-wins deduplication by `pubchem_id`. -/
def dedupFirst (l : List MolRow) : List MolRow := dedupFirstAux [] l

/-- Python tuple order on `(pubchem_id, descriptor)` pairs, as a Boolean
relation for sorting. -/
def pairLe (a b : Int × String) : Bool :=
  decide (a.1 < b.1) || (decide (a.1 = b.1) && charsLe a.2.data b.2.data)

/-- The four output tables (source lines 347–377). -/
structure Tables where
  entities : List (Int × String × String)
  molecules : List MolRow
  entity_mol : List (Int × Int)
  mol_desc : List (Int × String)
deriving Repr, DecidableEq

/-- The whole extraction pass (source lines 296–377): visit the cached
documents in file-name order; one entity row per document; accumulate
molecule rows, entity–molecule edges and descriptor pairs; deduplicate
molecules first-seen-wins; emit the descriptor pairs as `sorted(mol_desc)`.
The Python `set` accumulating `mol_desc` is modelled by deduplicating the
accumulated pair list before sorting — the emitted sorted list is the same. -/
def extractTables (cache : List (Nat × EntityDoc)) : Tables :=
  let docs := processOrder cache
  { entities := docs.map (fun p =>
      (p.2.entity_id, entityName p.2, p.2.category.getD "unknown"))
    molecules := dedupFirst (docs.flatMap (fun p => molRows p.2))
    entity_mol := docs.flatMap (fun p => molEdges p.2)
    mol_desc := ((docs.flatMap (fun p => descEdges p.2)).dedup).mergeSort pairLe }

/-! ## Concrete fixtures used by the counterexamples and witnesses -/

/-- A response body that parses to a minimal valid entity document. -/
def goodBody : OkBody :=
  { contentType := "application/json", text := "ok",
    parsed := some (JVal.obj [("entity_id", JVal.num 0), ("molecules", JVal.arr [])]) }

/-- A fetcher that answers the preflight with a valid entity and every other
ID with an unexpected `HTTPError` 503. -/
def httpFetch : Nat → RawResult := fun eid =>
  if eid = 0 then RawResult.ok goodBody else RawResult.httpError 503

/-- A fetcher that answers the preflight with a valid entity and every other
ID with a transport failure. -/
def transportFetch : Nat → RawResult := fun eid =>
  if eid = 0 then RawResult.ok goodBody else RawResult.transportError "boom"

/-- A fetcher that answers every ID with a valid entity. -/
def goodFetch : Nat → RawResult := fun _ => RawResult.ok goodBody

/-- A fetcher that answers the preflight with a valid entity and every other
ID with an HTML error page. -/
def htmlAfterFetch : Nat → RawResult := fun eid =>
  if eid = 0 then RawResult.ok goodBody
  else RawResult.ok { contentType := "text/html", text := "<html>oops", parsed := none }

/-- A fetcher that always answers with an HTML error page. -/
def htmlFetch : Nat → RawResult := fun _ =>
  RawResult.ok { contentType := "text/html", text := "<html>error", parsed := none }

/-- Cached document with file ID 2 and no molecules. -/
def docA : EntityDoc := ⟨2, none, none, none, []⟩

/-- Cached document with file ID 10 and no molecules. -/
def docB : EntityDoc := ⟨10, none, none, none, []⟩

/-- Molecule entry referencing `pubchem_id` 42 under the name `nameA`. -/
def molA : MolEntry := ⟨some 42, "nameA", "", "", "", ""⟩

/-- Molecule entry referencing `pubchem_id` 42 under the name `nameB`. -/
def molB : MolEntry := ⟨some 42, "nameB", "", "", "", ""⟩

/-- Cached document with file ID 2 whose single molecule is `molA`. -/
def docMA : EntityDoc := ⟨2, none, none, none, [molA]⟩

/-- Cached document with file ID 10 whose single molecule is `molB`. -/
def docMB : EntityDoc := ⟨10, none, none, none, [molB]⟩

/-! ## Claims -/

/-- Lexicographic comparison of character lists is total. -/
theorem charsLe_total (x y : List Char) : charsLe x y = true ∨ charsLe y x = true := by
  induction x generalizing y with
  | nil => left; rfl
  | cons a as ih =>
    cases y with
    | nil => right; rfl
    | cons b bs =>
      rcases Nat.lt_trichotomy a.toNat b.toNat with h | h | h
      · left; simp [charsLe, h]
      · rcases ih bs with h' | h'
        · left; simp [charsLe, h, h']
        · right; simp [charsLe, h.symm, h']
      · right; simp [charsLe, h]

/-- Lexicographic comparison of character lists is transitive. -/
theorem charsLe_trans {x y z : List Char}
    (h1 : charsLe x y = true) (h2 : charsLe y z = true) : charsLe x z = true := by
  induction x generalizing y z with
  | nil => rfl
  | cons a as ih =>
    cases y with
    | nil => simp [charsLe] at h1
    | cons b bs =>
      cases z with
      | nil => simp [charsLe] at h2
      | cons c cs =>
        simp only [charsLe, Bool.or_eq_true, Bool.and_eq_true, decide_eq_true_eq] at *
        rcases h1 with h1 | ⟨h1e, h1r⟩
        · rcases h2 with h2 | ⟨h2e, h2r⟩
          · left; omega
          · left; omega
        · rcases h2 with h2 | ⟨h2e, h2r⟩
          · left; omega
          · right; exact ⟨by omega, ih h1r h2r⟩

/-- Claim C1, counterexample: with cached file IDs 2 and 10, the extraction
visits file `10.json` before file `2.json` (the glob results sort as path
strings), so the fold order — and hence the `entities` row order — is not
ascending in the numeric ID. -/
theorem claim1_counterexample :
    (processOrder [(2, docA), (10, docB)]).map (fun p => p.1) = [10, 2] ∧
    ¬ List.Sorted (· ≤ ·) ((processOrder [(2, docA), (10, docB)]).map (fun p => p.1)) ∧
    (extractTables [(2, docA), (10, docB)]).entities
      = [(10, "entity_10", "unknown"), (2, "entity_2", "unknown")] := by
  decide

/-- Claim C1, amended: the extraction visits the cached documents in the
lexicographic order of their file names `"{id}.json"` — a permutation of the
cache sorted by `fileLe` — not in ascending numeric ID order (the two orders
differ as soon as IDs of different digit counts are cached). -/
theorem claim1_amended (cache : List (Nat × EntityDoc)) :
    (processOrder cache).Perm cache ∧ List.Sorted fileLe (processOrder cache) := by
  constructor
  · exact List.perm_insertionSort fileLe cache
  · exact @List.sorted_insertionSort _ fileLe _
      ⟨fun a b => charsLe_total _ _⟩ ⟨fun a b c => charsLe_trans⟩ cache

/-- Claim C2, counterexample: with a fetcher returning an unexpected
`HTTPError` 503 for 40 consecutive IDs, the sweep accumulates 40 entries in
`errors` yet never aborts and fetches every ID of the range — the
circuit-breaker check lives only in the generic-exception handler, which
`HTTPError` never reaches. -/
theorem claim2_counterexample :
    20 ≤ (runDownload httpFetch 40 []).final.errors.length ∧
    (runDownload httpFetch 40 []).final.aborted = false ∧
    (runDownload httpFetch 40 []).final.fetched = List.range 41 := by
  decide

/-- Claim C2, amended: the sweep aborts exactly when a *transport* failure
(generic exception) is recorded while at least 20 entries have accumulated in
`errors` and the 20th-most-recent error's ID is within 25 of the current ID;
an unexpected `HttpError` appends to `errors` but can never abort the
sweep. -/
theorem claim2_amended (fetch : Nat → RawResult) (s : SweepState) (eid : Nat)
    (hab : s.aborted = false) :
    (sweepStep fetch s eid).aborted = true ↔
      eid ∉ s.cache ∧
      ∃ msg, fetch eid = RawResult.transportError msg ∧
        breakerTrips eid (s.errors ++ [(eid, msg)]) = true := by
  by_cases hc : eid ∈ s.cache
  · simp [sweepStep, hc, hab]
  · cases hf : fetch eid with
    | httpError code =>
      by_cases h4 : code = 404 || code = 400 || code = 500 <;>
        simp [sweepStep, hc, hf, hab, h4]
    | transportError msg =>
      simp [sweepStep, hc, hf]
    | ok body =>
      by_cases hh : looksHtml body.text
      · simp [sweepStep, hc, hf, hab, hh]
      · cases hp : body.parsed with
        | none => simp [sweepStep, hc, hf, hab, hh, hp]
        | some d =>
          rcases he : extract_entity d with ⟨e, b⟩
          cases b <;> simp [sweepStep, hc, hf, hab, hh, hp, he]

/-- Witness for `claim2_amended` at a concrete input: one unexpected
`HTTPError` on a fresh state does not abort. -/
theorem claim2_amended_witness :
    (sweepStep httpFetch (initState []) 1).aborted = true ↔
      1 ∉ (initState []).cache ∧
      ∃ msg, httpFetch 1 = RawResult.transportError msg ∧
        breakerTrips 1 ((initState []).errors ++ [(1, msg)]) = true :=
  claim2_amended httpFetch (initState []) 1 rfl

/-- Claim C3, counterexample: a transport failure at ID 1 leaves `not_found`
at 0 and appends `(1, "boom")` to `errors` — the opposite of the claimed
handling. -/
theorem claim3_counterexample :
    (runDownload transportFetch 1 []).final.not_found = 0 ∧
    (runDownload transportFetch 1 []).final.errors = [(1, "boom")] := by
  decide

/-- Claim C3, amended: an ID whose fetch ends in a transport failure appends
`(id, message)` to `errors` (and is subject to the circuit breaker) and
leaves `not_found` unchanged; only `HttpError` with status in 400/404/500
(and HTML, unparseable, or mis-shaped bodies) increments `not_found`. -/
theorem claim3_amended (fetch : Nat → RawResult) (s : SweepState) (eid : Nat) (msg : String)
    (hc : eid ∉ s.cache)
    (hf : fetch eid = RawResult.transportError msg) :
    (sweepStep fetch s eid).errors = s.errors ++ [(eid, msg)] ∧
    (sweepStep fetch s eid).not_found = s.not_found := by
  simp [sweepStep, hc, hf]

/-- Witness for `claim3_amended` at a concrete input. -/
theorem claim3_amended_witness :
    (sweepStep transportFetch (initState []) 1).errors
        = (initState []).errors ++ [(1, "boom")] ∧
    (sweepStep transportFetch (initState []) 1).not_found
        = (initState []).not_found :=
  claim3_amended transportFetch (initState []) 1 "boom" (by decide) rfl

/-- Claim C4, counterexample: a mapping wrapped under `"data"` that contains
`entity_id` but no `molecules` key is accepted by `extract_entity` (the
wrapper probe checks only `entity_id`), not classified as missing required
fields. -/
theorem claim4_counterexample :
    extract_entity (JVal.obj [("data", JVal.obj [("entity_id", JVal.num 5)])])
      = (JVal.obj [("entity_id", JVal.num 5)], true) := by
  rfl

/-- Claim C4, amended: one-level unwrapping accepts a nested mapping as soon
as it contains an entity-id key; the molecules key is required only for
direct (unwrapped) acceptance. -/
theorem claim4_amended (inner rest : List (String × JVal))
    (h1 : hasKey inner "entity_id" = true)
    (h2 : hasKey (("data", JVal.obj inner) :: rest) "entity_id" = false) :
    extract_entity (JVal.obj (("data", JVal.obj inner) :: rest))
      = (JVal.obj inner, true) := by
  simp [extract_entity, extractObj, probeWrappers, getKey, h1, h2,
        List.find?_cons_of_pos]

/-- Witness for `claim4_amended` at a concrete input. -/
theorem claim4_amended_witness :
    extract_entity (JVal.obj
        [("data", JVal.obj [("entity_id", JVal.num 5), ("x", JVal.null)])])
      = (JVal.obj [("entity_id", JVal.num 5), ("x", JVal.null)], true) :=
  claim4_amended [("entity_id", JVal.num 5), ("x", JVal.null)] [] rfl rfl

/-- Claim C5, counterexample: a preflight answered with an HTML error page is
a classification failure and indeed prevents the sweep, but no diagnostic
file is written — `TEST_RESPONSE.json` is saved only on a shape-probe
failure. -/
theorem claim5_counterexample :
    classificationFailed (preflight htmlFetch) = true ∧
    (runDownload htmlFetch 5 []).sweepRan = false ∧
    (runDownload htmlFetch 5 []).diagWritten = false := by
  decide

/-- Claim C5, amended: the sweep runs exactly when the preflight passes, and
the diagnostic file is written exactly when the preflight response parses as
JSON but fails the shape probe; HTML pages and unparseable bodies prevent
the sweep without leaving a diagnostic file. -/
theorem claim5_amended (fetch : Nat → RawResult) (maxId : Nat) (cache0 : List Nat) :
    ((runDownload fetch maxId cache0).sweepRan = true ↔
      ∃ e, preflight fetch = PreflightResult.pass e) ∧
    ((runDownload fetch maxId cache0).diagWritten = true ↔
      ∃ d, preflight fetch = PreflightResult.failShape d) := by
  cases h : preflight fetch <;> simp [runDownload, h]

/-- Claim C6 (code bug): in a fresh run in which every fetch succeeds, ID 0
is fetched twice — once by the preflight and again by the sweep, whose range
`range(0, max + 1)` starts at 0 even though the code announces a sweep of
IDs 1–max. -/
theorem claim6_double_fetch :
    (runDownload goodFetch 5 []).fetchLog = [0, 0, 1, 2, 3, 4, 5] ∧
    (runDownload goodFetch 5 []).fetchLog.count 0 = 2 := by
  decide

/-- Claim C7, counterexample: with the same `pubchem_id` 42 referenced by
cached files `2.json` (name `nameA`) and `10.json` (name `nameB`), the
deduplicated `molecules` table keeps the values of entity 10 — the first
occurrence in file-name order — not those of entity 2, the first in
ascending numeric ID order; `entity_molecule_edges` does keep both rows. -/
theorem claim7_counterexample :
    (extractTables [(2, docMA), (10, docMB)]).molecules
        = [{ pubchem_id := 42, common_name := "nameB", smile := "",
             molecular_weight := "", functional_groups := "" }] ∧
    ({ pubchem_id := 42, common_name := "nameB", smile := "",
       molecular_weight := "", functional_groups := "" } : MolRow)
        ≠ { pubchem_id := 42, common_name := "nameA", smile := "",
            molecular_weight := "", functional_groups := "" } ∧
    (extractTables [(2, docMA), (10, docMB)]).entity_mol = [(10, 42), (2, 42)] := by
  decide

/-- First-seen-wins deduplication, characterised: the surviving rows of a
given `pubchem_id` are exactly the first occurrence in input order (none if
that ID was already seen). -/
theorem dedupFirstAux_filter (pid : Int) (l : List MolRow) (seen : List Int) :
    (dedupFirstAux seen l).filter (fun m => decide (m.pubchem_id = pid))
      = if pid ∈ seen then []
        else (l.filter (fun m => decide (m.pubchem_id = pid))).take 1 := by
  induction l generalizing seen with
  | nil => simp [dedupFirstAux]
  | cons m rest ih =>
    by_cases hm : m.pubchem_id ∈ seen
    · by_cases hp : pid ∈ seen
      · simp [dedupFirstAux, hm, hp, ih, List.filter_cons]
      · have hne : ¬ (m.pubchem_id = pid) := fun h => hp (h ▸ hm)
        simp [dedupFirstAux, hm, hp, ih, List.filter_cons, hne]
    · by_cases hmp : m.pubchem_id = pid
      · subst hmp
        simp [dedupFirstAux, hm, ih, List.filter_cons]
      · by_cases hp : pid ∈ seen
        · simp [dedupFirstAux, hm, hp, ih, List.filter_cons, hmp, Ne.symm hmp]
        · simp [dedupFirstAux, hm, hp, ih, List.filter_cons, hmp, Ne.symm hmp]

/-- Claim C7, amended: for every cache contents and every `pubchem_id`, the
`molecules` table keeps exactly the first row for that ID in the extraction's
processing order — the file-name order, not ascending numeric ID order —
while `entity_molecule_edges` keeps one row per occurrence, undeduplicated. -/
theorem claim7_amended (cache : List (Nat × EntityDoc)) (pid : Int) :
    (extractTables cache).molecules.filter (fun m => decide (m.pubchem_id = pid))
      = (((processOrder cache).flatMap (fun p => molRows p.2)).filter
          (fun m => decide (m.pubchem_id = pid))).take 1 ∧
    (extractTables cache).entity_mol
      = (processOrder cache).flatMap (fun p => molEdges p.2) := by
  refine ⟨?_, rfl⟩
  simpa [extractTables, dedupFirst] using
    dedupFirstAux_filter pid ((processOrder cache).flatMap (fun p => molRows p.2)) []

/-- Claim C8, counterexample: a sweep whose ID 1 attempt returns an HTML
error page issues two network attempts but sleeps only after the successful
one — no throttle follows the HTML response. -/
theorem claim8_counterexample :
    (runDownload htmlAfterFetch 1 []).final.fetched = [0, 1] ∧
    (runDownload htmlAfterFetch 1 []).final.sleeps = [0] := by
  decide

/-- Claim C8, amended: the throttle sleep runs exactly after the attempts
that download a valid entity; it never follows a cache hit, an HTML page, an
unparseable body, a shape failure, or an HTTP/transport error. -/
theorem claim8_amended (fetch : Nat → RawResult) (s : SweepState) (eid : Nat) :
    ((sweepStep fetch s eid).sleeps = s.sleeps ++ [eid] ↔
      (sweepStep fetch s eid).downloaded = s.downloaded + 1) ∧
    (eid ∈ s.cache → (sweepStep fetch s eid).sleeps = s.sleeps) := by
  by_cases hc : eid ∈ s.cache
  · simp [sweepStep, hc]
  · refine ⟨?_, fun h => absurd h hc⟩
    cases hf : fetch eid with
    | httpError code =>
      by_cases h4 : code = 404 || code = 400 || code = 500 <;>
        simp [sweepStep, hc, hf, h4]
    | transportError msg => simp [sweepStep, hc, hf]
    | ok body =>
      by_cases hh : looksHtml body.text
      · simp [sweepStep, hc, hf, hh]
      · cases hp : body.parsed with
        | none => simp [sweepStep, hc, hf, hh, hp]
        | some d =>
          rcases he : extract_entity d with ⟨e, b⟩
          cases b <;> simp [sweepStep, hc, hf, hh, hp, he]

/-- Witness for `claim8_amended` at a concrete input: a cache hit neither
sleeps nor downloads. -/
theorem claim8_amended_witness :
    ((sweepStep goodFetch (initState [5]) 5).sleeps = (initState [5]).sleeps ++ [5] ↔
      (sweepStep goodFetch (initState [5]) 5).downloaded
        = (initState [5]).downloaded + 1) ∧
    (5 ∈ (initState [5]).cache →
      (sweepStep goodFetch (initState [5]) 5).sleeps = (initState [5]).sleeps) :=
  claim8_amended goodFetch (initState [5]) 5

/-- Membership in the descriptor pairs contributed by one document. -/
theorem mem_descEdges {d : EntityDoc} {pid : Int} {ds : String} :
    (pid, ds) ∈ descEdges d ↔
      ∃ m ∈ d.molecules, m.pubchem_id = some pid ∧ ds ∈ descriptors m.flavor_profile := by
  simp only [descEdges, List.mem_flatMap]
  constructor
  · rintro ⟨m, hm, hmem⟩
    cases hpid : m.pubchem_id with
    | none => rw [hpid] at hmem; simp at hmem
    | some q =>
      rw [hpid] at hmem
      simp only [List.mem_map] at hmem
      obtain ⟨d', hd', heq⟩ := hmem
      cases heq
      exact ⟨m, hm, hpid, hd'⟩
  · rintro ⟨m, hm, hpid, hds⟩
    exact ⟨m, hm, by rw [hpid]; exact List.mem_map.mpr ⟨ds, hds, rfl⟩⟩

/-- Claim C10: the `molecule_descriptor_edges` table contains a pair
`(pid, d)` exactly when *some* cached occurrence of `pid` — including
occurrences whose molecule row is discarded by first-seen-wins
deduplication — carries the normalized descriptor `d` in its
`flavor_profile`. -/
theorem claim10_descriptor_union (cache : List (Nat × EntityDoc)) (pid : Int) (ds : String) :
    (pid, ds) ∈ (extractTables cache).mol_desc ↔
      ∃ p ∈ cache, ∃ m ∈ p.2.molecules,
        m.pubchem_id = some pid ∧ ds ∈ descriptors m.flavor_profile := by
  simp only [extractTables, processOrder, List.mem_mergeSort, List.mem_dedup,
    List.mem_flatMap, List.mem_insertionSort, mem_descEdges]
